import Mathlib

/-!
# Verification of the Prospect report generator

A shallow embedding of the core data-gathering code of the Prospect
repository (`report_generator_local3.py`): the Brave search-result
normalizer (`fetch_brave_search_results`), the priority-ranked site
crawler (`scrape_website_with_subpages`), and the orchestrator
(`generate_full_report`).

Python values flowing through the search-result normalizer are modelled
by the inductive type `Json`; Python exceptions are modelled with
`Except String`; the external collaborators (HTTP transport, browser
automation, LLM client, regular-expression matching) are modelled as
oracle inputs.  Python text is modelled as `String` (for URLs / labels)
and as `List Char` where character-level slicing matters.
-/

/-- JSON values, as produced by Python `json.loads` (numbers restricted to
integers; floating point does not occur in any property verified here). -/
inductive Json where
  | null
  | bool (b : Bool)
  | num (n : Int)
  | str (s : String)
  | arr (items : List Json)
  | obj (fields : List (String × Json))

/-- A Python dict produced from a JSON object: association list of fields. -/
abbrev JObj := List (String × Json)

/-- First binding of key `k`, mirroring Python dict lookup (keys are unique
in a dict; for the model the first binding wins). -/
def jlookup (o : JObj) (k : String) : Option Json :=
  match o with
  | [] => none
  | (k0, v) :: rest => if k0 = k then some v else jlookup rest k

/-- Python `d.get(k)` on a dict: the value, or `None` when absent. -/
def dictGet (o : JObj) (k : String) : Json :=
  (jlookup o k).getD Json.null

/-- Python `k in d` on a dict: key presence. -/
def hasKey (o : JObj) (k : String) : Bool :=
  (jlookup o k).isSome

/-- Python truthiness of a JSON value (`bool(v)`). -/
def Json.truthy : Json → Bool
  | .null => false
  | .bool b => b
  | .num n => n != 0
  | .str s => s != ""
  | .arr items => ¬ items.isEmpty
  | .obj fields => ¬ fields.isEmpty

/-- Whether the value is a dict (`isinstance(v, dict)`). -/
def Json.isObj : Json → Bool
  | .obj _ => true
  | _ => false

/-- Whether the value is a list (`isinstance(v, list)`). -/
def Json.isArr : Json → Bool
  | .arr _ => true
  | _ => false

/-- Python `str(v)` as used in f-string interpolation of a scalar.  The
list/dict cases are unreachable in the transcription (using such a value as
a dict key raises before any f-string is built); they are given a fixed
rendering to keep the function total. -/
def pyStr : Json → String
  | .null => "None"
  | .bool true => "True"
  | .bool false => "False"
  | .num n => toString n
  | .str s => s
  | .arr _ => "[unreachable]"
  | .obj _ => "[unreachable]"

/-- Python `d.get(k)` where the key is itself a Python value
(`item.get(item_type)`): string keys look up normally, other hashable
scalars miss (JSON object keys are strings), unhashable keys raise
`TypeError`. -/
def pyGetKey (o : JObj) (k : Json) : Except String Json :=
  match k with
  | .str s => .ok (dictGet o s)
  | .arr _ => .error "TypeError: unhashable type"
  | .obj _ => .error "TypeError: unhashable type"
  | _ => .ok Json.null

/-- Python `v.get(k)` on an arbitrary value: raises `AttributeError` when
the receiver is not a dict. -/
def attrGet (v : Json) (k : String) : Except String Json :=
  match v with
  | .obj o => .ok (dictGet o k)
  | _ => .error "AttributeError: .get on non-dict"

/-! ## Search Result Normalizer (`fetch_brave_search_results`, lines 160-427)

The extraction chain of lines 194-346, transcribed branch by branch.
A raised Python exception is an `Except.error`; it propagates to the
generic `except Exception` handler of line 425. -/

/-- Guard pattern `v and isinstance(v.get("results"), list)` used by the
top-level `news`/`web`/`discussions` branches (lines 201-209) and inside
the `mixed` dict (lines 280-290, 334-339): `some l` when the container is
truthy and holds a `results` list, `none` when the guard fails, and a
raised `AttributeError` when the container is truthy but not a dict. -/
def containerResults (v : Json) : Except String (Option (List Json)) :=
  if v.truthy then
    match v with
    | .obj o =>
      match dictGet o "results" with
      | .arr l => .ok (some l)
      | _ => .ok none
    | _ => .error "AttributeError: .get on non-dict"
  else .ok none

/-- Flat-item check of lines 241-242 and 254-255: an item carrying both
`title` and `url` keys is used as-is. -/
def flatCheck (o : JObj) : Option Json :=
  if hasKey o "title" && hasKey o "url" then some (Json.obj o) else none

/-- Item unwrapping of lines 234-247: a `{type, <type>: {...}}` wrapper,
then a `{type}_result` wrapper, then a flat `title`/`url` item. -/
def unwrapItem (o : JObj) : Except String (Option Json) :=
  let t := dictGet o "type"
  if t.truthy then
    match pyGetKey o t with
    | .error e => .error e
    | .ok v =>
      if v.truthy && v.isObj then .ok (some v)
      else
        let v2 := dictGet o (pyStr t ++ "_result")
        if v2.truthy && v2.isObj then .ok (some v2)
        else .ok (flatCheck o)
  else .ok (flatCheck o)

/-- `process_result_container` (lines 222-258). -/
def processResultContainer (c : Json) : Except String (List Json) :=
  if ¬ c.truthy then .ok []
  else
    match c with
    | .arr items =>
      items.foldlM (fun acc item =>
        match item with
        | .obj o =>
          match unwrapItem o with
          | .error e => .error e
          | .ok (some v) => .ok (acc ++ [v])
          | .ok none => .ok acc
        | _ => .ok acc) []
    | .obj o =>
      match dictGet o "results" with
      | .arr l => .ok l
      | _ =>
        if hasKey o "title" && hasKey o "url" then .ok [Json.obj o] else .ok []
    | _ => .ok []

/-- The `searches` probe of lines 313-317: every dict element of a
`searches` list contributes its truthy `results` list. -/
def searchesResults (v : Json) : List Json :=
  match v with
  | .arr items =>
    items.foldl (fun acc it =>
      match it with
      | .obj o =>
        match dictGet o "results" with
        | .arr (x :: xs) => acc ++ (x :: xs)
        | _ => acc
      | _ => acc) []
  | _ => []

/-- The `main`/`top`/`side` probe of lines 319-327: each present region is
run through `process_result_container` and appended when non-empty. -/
def mtsFold (m : JObj) (base : List Json) : Except String (List Json) :=
  ["main", "top", "side"].foldlM (fun acc k =>
    match jlookup m k with
    | some v =>
      match processResultContainer v with
      | .error e => .error e
      | .ok ext => .ok (if ext.isEmpty then acc else acc ++ ext)
    | none => .ok acc) base

/-- Whether a mixed dict announces `type == "no_results"` (lines 261, 275). -/
def typeIsNoResults (m : JObj) : Bool :=
  match dictGet m "type" with
  | .str s => s = "no_results"
  | _ => false

/-- Outcome of the extraction chain: an explicit empty-result early return,
or the accumulated `results_list`. -/
inductive ExtractOut where
  | earlyEmpty
  | list (l : List Json)

/-- The `data["mixed"]` processing of lines 216-346.  The source checks the
`no_results` type twice (lines 261 and 275); both collapse to one test. -/
def mixedExtract (mixed : Json) : Except String ExtractOut :=
  match mixed with
  | .obj m =>
    if typeIsNoResults m then .ok .earlyEmpty
    else
      match containerResults (dictGet m "web") with
      | .error e => .error e
      | .ok r1 =>
        match containerResults (dictGet m "news") with
        | .error e => .error e
        | .ok r2 =>
          match containerResults (dictGet m "discussions") with
          | .error e => .error e
          | .ok r3 =>
            let base := r1.getD [] ++ r2.getD [] ++ r3.getD []
              ++ searchesResults (dictGet m "searches")
            match mtsFold m base with
            | .error e => .error e
            | .ok acc =>
              if acc.isEmpty then
                -- fallback keys of lines 330-339
                let f0 := match dictGet m "results" with
                  | .arr l => l
                  | _ => []
                match containerResults (dictGet m "web") with
                | .error e => .error e
                | .ok g1 =>
                  match containerResults (dictGet m "news") with
                  | .error e => .error e
                  | .ok g2 =>
                    match containerResults (dictGet m "discussions") with
                    | .error e => .error e
                    | .ok g3 =>
                      .ok (.list (f0 ++ g1.getD [] ++ g2.getD [] ++ g3.getD []))
              else .ok (.list acc)
  | .arr items =>
    -- line 265; unreachable from `extractResults` (line 195 raises first)
    match processResultContainer (.arr items) with
    | .error e => .error e
    | .ok l => .ok (.list l)
  | _ => .ok (.list [])

/-- The early `no_results` probe of line 195:
`'mixed' in data and data.get('mixed', {}).get('type') == 'no_results'`.
`.ok true` triggers the early empty-success return; a truthy or falsy
non-dict `mixed` value raises `AttributeError` on `.get`. -/
def preMixedCheck (data : JObj) : Except String Bool :=
  match jlookup data "mixed" with
  | none => .ok false
  | some (.obj m) => .ok (typeIsNoResults m)
  | some _ => .error "AttributeError: .get on non-dict"

/-- The full extraction chain of lines 194-346: early `no_results` probe,
then `news` → `web` → `discussions` → top-level `results` → top-level
`hits` → `mixed`, settling on the first branch whose guard matches. -/
def extractResults (data : JObj) : Except String ExtractOut :=
  match preMixedCheck data with
  | .error e => .error e
  | .ok true => .ok .earlyEmpty
  | .ok false =>
    match containerResults (dictGet data "news") with
    | .error e => .error e
    | .ok (some l) => .ok (.list l)
    | .ok none =>
      match containerResults (dictGet data "web") with
      | .error e => .error e
      | .ok (some l) => .ok (.list l)
      | .ok none =>
        match containerResults (dictGet data "discussions") with
        | .error e => .error e
        | .ok (some l) => .ok (.list l)
        | .ok none =>
          match dictGet data "results" with
          | .arr l => .ok (.list l)
          | _ =>
            match dictGet data "hits" with
            | .arr l => .ok (.list l)
            | _ =>
              if (dictGet data "mixed").truthy then
                mixedExtract (dictGet data "mixed")
              else .ok (.list [])

/-! ## Per-record field recovery (lines 365-407) -/

/-- `urlparse(u).netloc`: the authority component of an absolute URL —
the text between the first `"://"` (or a leading `"//"`) and the next
`/`, `?` or `#`; empty when the URL has no authority. -/
def afterSchemeMarker : List Char → List Char
  | ':' :: '/' :: '/' :: rest => rest
  | _ :: rest => afterSchemeMarker rest
  | [] => []

def netlocOf (u : String) : String :=
  let tl :=
    match u.data with
    | '/' :: '/' :: rest => rest
    | l => afterSchemeMarker l
  String.mk (tl.takeWhile (fun c => c ≠ '/' && c ≠ '?' && c ≠ '#'))

/-- Python `s.strip()` (whitespace at both ends removed). -/
def pyStrip (s : String) : String :=
  String.mk
    (((s.data.dropWhile Char.isWhitespace).reverse.dropWhile Char.isWhitespace).reverse)

/-- `title` recovery (lines 373-375): `res.get("title", "No title")`, and
the `name` field for records (such as videos) that keep the default. -/
def parseTitle (o : JObj) : Json :=
  let t := (jlookup o "title").getD (Json.str "No title")
  let isDefault := match t with
    | .str s => s == "No title"
    | _ => false
  if isDefault && (dictGet o "name").truthy then dictGet o "name"
  else t

/-- `description` recovery (lines 377-380 and the `.strip()` of line 402):
`description` or `snippet`, then a truthy nested `web.snippet`, then the
default text.  A truthy non-string description raises `AttributeError`
at the final `.strip()`. -/
def parseDescription (o : JObj) : Except String String :=
  let d0 := if (dictGet o "description").truthy then dictGet o "description"
            else dictGet o "snippet"
  let d1 :=
    if ¬ d0.truthy then
      match dictGet o "web" with
      | .obj w => if (dictGet w "snippet").truthy then dictGet w "snippet" else d0
      | _ => d0
    else d0
  let d2 := if ¬ d1.truthy then Json.str "No content available." else d1
  match d2 with
  | .str s => .ok (pyStrip s)
  | _ => .error "AttributeError: .strip on non-str"

/-- `url` recovery (lines 382-384): top-level `url`, else a truthy nested
`web.url`. -/
def parseUrl (o : JObj) : Json :=
  let u := dictGet o "url"
  if ¬ u.truthy then
    match dictGet o "web" with
    | .obj w => if (dictGet w "url").truthy then dictGet w "url" else u
    | _ => u
  else u

/-- `provider` recovery (lines 386-396 and the `or "Unknown Provider"` of
line 404).  The `urlparse` of line 395 is wrapped in its own
`try/except Exception: pass`, so a non-string `url_val` leaves the
provider unassigned instead of raising. -/
def parseProvider (o : JObj) (urlVal : Json) : Json :=
  let p0 :=
    match dictGet o "meta_url" with
    | .obj mu => dictGet mu "display_name"
    | _ =>
      if hasKey o "source" then dictGet o "source"
      else
        match dictGet o "profile" with
        | .obj pr => if (Json.obj pr).truthy then dictGet pr "name" else Json.null
        | _ => Json.null
  let p1 :=
    if ¬ p0.truthy && urlVal.truthy then
      match urlVal with
      | .str u => Json.str (netlocOf u)
      | _ => p0
    else p0
  if p1.truthy then p1 else Json.str "Unknown Provider"

/-- `date_published` recovery (lines 398 and 405): `age`, else `""`. -/
def parseDate (o : JObj) : Json :=
  let d := dictGet o "age"
  if d.truthy then d else Json.str ""

/-- One entry of `parsed_results` (lines 400-406). -/
structure ParsedRec where
  title : Json
  description : String
  url : Json
  provider : Json
  datePublished : Json

/-- Field recovery for one dict item of `results_list` (lines 373-406). -/
def parseRecord (o : JObj) : Except String ParsedRec :=
  match parseDescription o with
  | .error e => .error e
  | .ok desc =>
    let urlVal := parseUrl o
    .ok { title := parseTitle o
          description := desc
          url := urlVal
          provider := parseProvider o urlVal
          datePublished := parseDate o }

/-- The parsing loop of lines 368-406: non-dict items are skipped with a
diagnostic (line 369-371), dict items are field-recovered in order. -/
def parseResults (l : List Json) : Except String (List ParsedRec) :=
  l.foldlM (fun acc r =>
    match r with
    | .obj o =>
      match parseRecord o with
      | .error e => .error e
      | .ok p => .ok (acc ++ [p])
    | _ => .ok acc) []

/-! ## The full fetch (lines 160-427) -/

/-- Result dict of `fetch_brave_search_results`: a `status`, an optional
`message` (the all-parsed success return of line 408 carries none), and
the `results` list. -/
inductive BraveStatus where
  | success
  | error
deriving DecidableEq

structure BraveResponse where
  status : BraveStatus
  message : Option String
  results : List ParsedRec

/-- Body of a 200 response after `response.read().decode()`: either valid
JSON (restricted to a top-level object, the shape the Brave API sends) or
text that makes `json.loads` raise `JSONDecodeError`. -/
inductive BodyParse where
  | malformed (msg : String)
  | wellFormed (data : JObj)

/-- Outcome of the HTTP call of line 190: a `urllib.error.URLError`, or a
response with a status code and body. -/
inductive Transport where
  | netError (msg : String)
  | response (status : Nat) (body : BodyParse)

/-- Python `f"'{q}'"`. -/
def quoted (q : String) : String := "'" ++ q ++ "'"

/-- Handling of a 200 response with well-formed JSON `data`
(lines 192-411), in the exception monad of the outer `try`. -/
def handle200 (query : String) (data : JObj) : Except String BraveResponse :=
  match extractResults data with
  | .error e => .error e
  | .ok .earlyEmpty =>
    .ok ⟨.success, some ("No search results found for " ++ quoted query ++ "."), []⟩
  | .ok (.list []) =>
    .ok ⟨.success,
         some ("No search results found or extracted for " ++ quoted query ++ "."), []⟩
  | .ok (.list l) =>
    match parseResults l with
    | .error e => .error e
    | .ok parsed => .ok ⟨.success, none, parsed⟩

/-- `fetch_brave_search_results` (lines 160-427).  `configured` is the
`USE_BRAVE_SEARCH` flag (line 161); `keyOk` is the credential check of
line 168; the transport models the `urllib` call. -/
def fetch_brave_search_results (configured keyOk : Bool) (query : String)
    (t : Transport) : BraveResponse :=
  if ¬ configured then
    ⟨.error, some "Brave Search is not configured or disabled.", []⟩
  else if ¬ keyOk then
    ⟨.error,
     some "Brave Search API key or endpoint not configured or is a placeholder.", []⟩
  else
    match t with
    | .netError m => ⟨.error, some ("URL Error reaching Brave API: " ++ m), []⟩
    | .response st body =>
      if st = 200 then
        match body with
        | .malformed m => ⟨.error, some ("JSON decoding failed: " ++ m), []⟩
        | .wellFormed data =>
          match handle200 query data with
          | .ok r => r
          | .error e => ⟨.error, some ("An unexpected error occurred: " ++ e), []⟩
      else
        ⟨.error,
         some ("Brave API request failed with status " ++ toString st), []⟩

/-! ## Site crawler (`scrape_website_with_subpages`, lines 499-684) -/

/-- Constant of line 64. -/
def WEBSITE_TEXT_LIMIT : Nat := 25000

/-- Constant of line 65. -/
def MAX_SUBPAGES_TO_SCRAPE : Nat := 5

/-- The components of a parsed URL as returned by `urlparse`. -/
structure PyUrl where
  scheme : String
  netloc : String
  path : String
  query : String
  fragment : String

/-- Python `path.rstrip('/')`: all trailing slashes removed. -/
def rstripSlash (s : String) : String :=
  String.mk (List.reverse (s.data.reverse.dropWhile (fun c => c == '/')))

/-- The URL-normalization of lines 583-585:
`urljoin(scheme + "://" + netloc, path.rstrip('/'))`.  The `urljoin`
semantics for a path target: an empty target keeps the base, an absolute
path replaces the base path, a relative path is resolved against the empty
base path. -/
def normalizedKey (u : PyUrl) : String :=
  let base := u.scheme ++ "://" ++ u.netloc
  let p := rstripSlash u.path
  if p = "" then base
  else if "/".data.isPrefixOf p.data then base ++ p
  else base ++ "/" ++ p

/-- Python `netloc.replace('www.', '')` (lines 589-590): every occurrence
of the substring `"www."` removed, scanning left to right. -/
def dropWwwAux : List Char → List Char
  | 'w' :: 'w' :: 'w' :: '.' :: rest => dropWwwAux rest
  | c :: rest => c :: dropWwwAux rest
  | [] => []

def stripWww (s : String) : String := String.mk (dropWwwAux s.data)

/-- The `potential_links` update of lines 601-608: keyed by normalized
URL, keeping the minimum (best) priority on collision. -/
def addPotentialLink (links : List (String × Nat)) (url : String)
    (priority : Nat) : List (String × Nat) :=
  match links with
  | [] => [(url, priority)]
  | (u, p) :: rest =>
    if u = url then (u, min p priority) :: rest
    else (u, p) :: addPotentialLink rest url priority

/-- `sorted(potential_links.items(), key=lambda item: item[1])`
(line 612). -/
def sortLinks (links : List (String × Nat)) : List (String × Nat) :=
  List.insertionSort (fun a b => a.2 ≤ b.2) links

/-- `if not base_url.startswith(('http://', 'https://'))` (lines 506-507). -/
def normalizeBase (baseUrl : String) : String :=
  if "http://".data.isPrefixOf baseUrl.data
      || "https://".data.isPrefixOf baseUrl.data then baseUrl
  else "https://" ++ baseUrl

/-- The homepage block of line 544:
`f"--- Homepage: {base_url} ---\n{homepage_text}\n\n"`. -/
def homeSection (baseUrl : String) (text : List Char) : List Char :=
  ("--- Homepage: " ++ baseUrl ++ " ---\n").data ++ text ++ "\n\n".data

/-- The subpage block of line 664:
`f"\n--- Subpage (P{priority}): {url} ---\n{subpage_text}\n\n"`. -/
def subSection (priority : Nat) (url : String) (text : List Char) : List Char :=
  ("\n--- Subpage (P" ++ toString priority ++ "): " ++ url ++ " ---\n").data
    ++ text ++ "\n\n".data

/-- State threaded through the subpage loop of lines 627-674.  `combined`,
`scrapedUrls` and `count` are the source's `combined_text`, `scraped_urls`
and `subpages_scraped_count`; `attempts` counts navigation attempts and
`visited` records the successful scrape order (both are specification
instrumentation with no effect on the text). -/
structure CrawlState where
  combined : List Char
  scrapedUrls : List String
  count : Nat
  attempts : Nat
  visited : List String

/-- The subpage loop of lines 627-674: stop at the subpage budget, skip
already-scraped URLs, stop at the text budget, then navigate; a failed
fetch (timeout, missing element, driver error — lines 667-674) is skipped
without touching the text, the scraped set or the count. -/
def subpageLoop (fetchSub : String → Option (List Char)) (maxSub limit : Nat) :
    CrawlState → List (String × Nat) → CrawlState
  | st, [] => st
  | st, (url, priority) :: rest =>
    if st.count ≥ maxSub then st
    else if url ∈ st.scrapedUrls then subpageLoop fetchSub maxSub limit st rest
    else if st.combined.length ≥ limit then st
    else
      match fetchSub url with
      | some text =>
        subpageLoop fetchSub maxSub limit
          { combined := st.combined ++ subSection priority url text
            scrapedUrls := st.scrapedUrls ++ [url]
            count := st.count + 1
            attempts := st.attempts + 1
            visited := st.visited ++ [url] } rest
      | none =>
        subpageLoop fetchSub maxSub limit { st with attempts := st.attempts + 1 } rest

/-- Outcome of the homepage navigation and body wait of lines 536-543:
ready text, a `TimeoutException` on the body wait, or a
`WebDriverException`/unexpected error during the Selenium operations. -/
inductive HomeOutcome where
  | timeout
  | crash
  | ok (text : List Char)

/-- Result of a crawl before the final text cap: a failure marker
(lines 541, 681, 684) or a completed loop state. -/
inductive CrawlOutcome where
  | failed (marker : String)
  | done (st : CrawlState)

/-- The crawl of lines 534-677 with the external effects as oracles:
`home` is the homepage navigation outcome, `links` is the
`potential_links` dict discovered on the homepage (empty on link-discovery
timeout, lines 619-624), `fetchSub` is the per-subpage navigation and
content extraction. -/
def scrapeRun (home : HomeOutcome) (links : List (String × Nat))
    (fetchSub : String → Option (List Char)) (baseUrl0 : String) : CrawlOutcome :=
  let baseUrl := normalizeBase baseUrl0
  match home with
  | .crash => .failed "[Website scraping failed due to WebDriverException]"
  | .timeout => .failed "[Website scraping failed: Homepage body timeout]"
  | .ok homeText =>
    let init : CrawlState :=
      { combined := homeSection baseUrl homeText
        scrapedUrls := [baseUrl]
        count := 0
        attempts := 0
        visited := [] }
    .done (subpageLoop fetchSub MAX_SUBPAGES_TO_SCRAPE WEBSITE_TEXT_LIMIT init
      (sortLinks links))

/-- `scrape_website_with_subpages` (lines 499-684): the failure markers of
the exception paths, or the combined text capped at `WEBSITE_TEXT_LIMIT`
(line 677). -/
def scrape_website_with_subpages (home : HomeOutcome) (links : List (String × Nat))
    (fetchSub : String → Option (List Char)) (baseUrl0 : String) : List Char :=
  match scrapeRun home links fetchSub baseUrl0 with
  | .failed m => m.data
  | .done st => st.combined.take WEBSITE_TEXT_LIMIT

/-- `subpages_scraped_count` at the end of a crawl. -/
def scrapedSubpageCount : CrawlOutcome → Nat
  | .failed _ => 0
  | .done st => st.count

/-- Navigation attempts made by the subpage loop. -/
def attemptedSubpages : CrawlOutcome → Nat
  | .failed _ => 0
  | .done st => st.attempts

/-- Successfully scraped subpage URLs, in scrape order. -/
def visitedSubpages : CrawlOutcome → List String
  | .failed _ => []
  | .done st => st.visited

/-- The text block a successful fetch of candidate `l` contributes. -/
def sectionOf (fetchSub : String → Option (List Char)) (l : String × Nat) :
    List Char :=
  subSection l.2 l.1 ((fetchSub l.1).getD [])

/-- Total length of the blocks contributed by the candidates `ls`. -/
def sectionsLen (fetchSub : String → Option (List Char))
    (ls : List (String × Nat)) : Nat :=
  (ls.map (fun l => (sectionOf fetchSub l).length)).sum

/-! ## Search adapters and orchestrator steps -/

/-- One formatted news snippet (lines 441-448). -/
def newsSnippet (a : ParsedRec) : String :=
  let formattedDate := if a.datePublished.truthy then pyStr a.datePublished
                       else "Date N/A"
  "Title: " ++ pyStr a.title ++ "\n  Source: " ++ pyStr a.provider ++ " ("
    ++ formattedDate ++ ")\n  Description: " ++ a.description ++ "\n  URL: "
    ++ pyStr a.url ++ "\n---\n"

/-- `search_brave_news` (lines 429-458) applied to the fetch outcome. -/
def search_brave_news (configured : Bool) (fetchResult : BraveResponse) : String :=
  if ¬ configured then
    "[Brave Search skipped for news: Configuration missing or disabled]"
  else if fetchResult.status = .success ∧ ¬ fetchResult.results.isEmpty then
    String.intercalate "\n" (fetchResult.results.map newsSnippet)
  else if fetchResult.status = .success then
    "[No relevant news results found via Brave Search]"
  else
    "[Brave News search failed: " ++ fetchResult.message.getD "" ++ "]"

/-- Whether `needle` occurs as a contiguous run inside `hay`. -/
def isSubListOf (needle : List Char) : List Char → Bool
  | [] => needle.isEmpty
  | c :: rest => needle.isPrefixOf (c :: rest) || isSubListOf needle rest

/-- Substring test, Python `sub in s`. -/
def containsSub (s sub : String) : Bool := isSubListOf sub.data s.data

/-- Size-indicator keywords of line 473. -/
def sizeKeywords : List String :=
  ["revenue", "employees", "$", "€", "£", "million", "billion", "headcount",
   "workforce", "staff", "team size"]

/-- One formatted size-estimate snippet (line 481). -/
def sizeSnippet (r : ParsedRec) : String :=
  "Title: " ++ pyStr r.title ++ "\nURL: " ++ pyStr r.url ++ " (Source: "
    ++ pyStr r.provider ++ ")\nSnippet: " ++ r.description ++ "\n---\n"

/-- `search_brave_company_size_estimates` (lines 460-495). -/
def search_brave_company_size_estimates (configured : Bool)
    (fetchResult : BraveResponse) : String :=
  if ¬ configured then
    "[Brave Search for size data skipped: Configuration missing or disabled]"
  else if fetchResult.status = .success ∧ ¬ fetchResult.results.isEmpty then
    let relevant := fetchResult.results.filter (fun r =>
      r.description != "" &&
        sizeKeywords.any (fun kw => containsSub r.description.toLower kw))
    if ¬ relevant.isEmpty then
      String.intercalate "\n" (relevant.map sizeSnippet)
    else
      "[No relevant snippets found via Brave Web Search for size data]"
  else if fetchResult.status = .success then
    "[No web results found via Brave Web Search for size data]"
  else
    "[Brave Web Search for size data failed: " ++ fetchResult.message.getD "" ++ "]"

/-- `search_brave_relevant_subreddits` (lines 994-1094).  `snippetInfo`
models the regular-expression extraction and formatting of lines
1041-1076 — an application of Python's external `re` module — as an
oracle: the formatted block for a result that contributes subreddit
information, `none` for a skipped result. -/
def search_brave_relevant_subreddits (configured : Bool)
    (snippetInfo : ParsedRec → Option String) (fetchResult : BraveResponse) :
    String :=
  if ¬ configured then
    "[Brave Search for subreddits skipped: Configuration missing or disabled]"
  else if fetchResult.status = .success ∧ ¬ fetchResult.results.isEmpty then
    let found := fetchResult.results.filterMap snippetInfo
    if ¬ found.isEmpty then String.intercalate "\n" found
    else
      "[No relevant snippets found with subreddit information via Brave Web Search for this query]"
  else if fetchResult.status = .success then
    "[No web results found via Brave Web Search for this subreddit query]"
  else
    "[Brave Web Search for subreddits failed: " ++ fetchResult.message.getD "" ++ "]"

/-- `get_social_media_links` (lines 1193-1239).  The single-request,
single-parse `find_social_media_links` scrape is an external collaborator
(spec §1): its outcome — a platform/link table, or an error — is an
oracle input.  The error-dict return path and the exception path of the
source both format to the same failed marker. -/
def get_social_media_links (domain : Option String)
    (findResult : Except String (List (String × Option String))) : String :=
  match domain with
  | none => "[Social media links search skipped: No domain provided]"
  | some _ =>
    match findResult with
    | .error e => "[Social media links search failed: " ++ e ++ "]"
    | .ok platforms =>
      let found := platforms.filterMap (fun pl =>
        match pl.2 with
        | some link => some ("- " ++ pl.1 ++ ": " ++ link)
        | none => none)
      if ¬ found.isEmpty then
        "Social media links found by scanning website:\n"
          ++ String.intercalate "\n" found
      else "[No social media links found on company website]"

/-- Outcome of the LM Studio estimation call (lines 967-992): content, an
empty completion, a connection error, an API error, or an unexpected
exception (its text given already truncated to the 100 characters the
source keeps). -/
inductive LlmResp where
  | content (s : String)
  | empty (finishReason : String)
  | connError
  | apiError (statusCode : String)
  | other (e : String)

/-- `get_llm_company_estimates` (lines 935-992): each failure mode is
converted to a bracketed placeholder in the function itself. -/
def get_llm_company_estimates (clientOk : Bool) (resp : LlmResp) : String :=
  if ¬ clientOk then "[LLM estimation skipped: LM Studio client not configured]"
  else
    match resp with
    | .content s => pyStrip s
    | .empty reason =>
      "[LLM estimation failed: No content in LM Studio response. Finish reason: "
        ++ reason ++ "]"
    | .connError => "[LLM estimation failed: LM Studio Connection Error]"
    | .apiError code =>
      "[LLM estimation failed: LM Studio API Error (Status " ++ code ++ ")]"
    | .other e => "[LLM estimation failed: Unexpected error (" ++ e ++ ")]"

/-- One collected GlobeNewswire article (lines 914-921). -/
structure GArticle where
  title : String
  date : String
  source : String
  url : String
  summary : String
  content : String

/-! ## Orchestrator (`generate_full_report`, lines 1538-1711) -/

/-- A value of the aggregate dataset `raw_data`: a text block or the
article list. -/
inductive RV where
  | text (s : String)
  | articles (l : List GArticle)

/-- The initial `raw_data` of lines 1600-1608, every fixed key bound to
its explicit skipped placeholder. -/
def initRawData : List (String × RV) :=
  [("website_content",
    .text "[Skipped - Domain not confirmed or scraping disabled/failed]"),
   ("llm_estimates", .text "[Skipped - LLM client issue or task skipped]"),
   ("brave_news_snippets", .text "[Skipped - Brave Search disabled or failed]"),
   ("brave_size_estimate_snippets",
    .text "[Skipped - Brave Search disabled or failed]"),
   ("brave_subreddits", .text "[Skipped - Brave Search disabled or failed]"),
   ("brave_social_media_links",
    .text "[Skipped - Social media link search not run or no results]"),
   ("globenewswire_articles", .articles [])]

/-- Python dict assignment `raw_data[k] = v`. -/
def setKey (d : List (String × RV)) (k : String) (v : RV) : List (String × RV) :=
  match d with
  | [] => [(k, v)]
  | (k0, v0) :: rest =>
    if k0 = k then (k, v) :: rest else (k0, v0) :: setKey rest k v

/-- Dataset lookup. -/
def lookupRV (d : List (String × RV)) (k : String) : Option RV :=
  match d with
  | [] => none
  | (k0, v) :: rest => if k0 = k then some v else lookupRV rest k

/-- The fixed keys of the aggregate dataset. -/
def aggregateKeys : List String :=
  ["website_content", "llm_estimates", "brave_news_snippets",
   "brave_size_estimate_snippets", "brave_subreddits",
   "brave_social_media_links", "globenewswire_articles"]

/-- Outcomes of every external collaborator touched by one report run. -/
structure CollabInputs where
  llm : LlmResp
  domain : Option String
  chromedriverPresent : Bool
  driverOk : Bool
  homeOutcome : HomeOutcome
  links : List (String × Nat)
  fetchSub : String → Option (List Char)
  braveConfigured : Bool
  newsTransport : Transport
  sizeTransport : Transport
  subredditTransport : Transport
  subredditInfo : ParsedRec → Option String
  socialFind : Except String (List (String × Option String))
  articles : List GArticle

/-- The size-estimate query of line 467. -/
def sizeQuery (n : String) : String :=
  "\"" ++ n ++ "\" annual revenue employees OR \"" ++ n
    ++ "\" company size OR \"" ++ n ++ "\" number of employees"

/-- The subreddit query parts of lines 1008-1018 for an empty topic (the
orchestrator passes `company_topic=""`, line 1649-1651). -/
def subredditQueryParts (n : String) : List String :=
  ["site:reddit.com \"" ++ n ++ "\" relevant subreddits",
   "site:reddit.com subreddits for \"" ++ n ++ "\" audience",
   "site:reddit.com \"" ++ n ++ "\" related communities",
   "site:reddit.com discuss \"" ++ n ++ "\""]

/-- The joined (and possibly truncated) subreddit query of lines 1020-1023. -/
def subredditQuery (n : String) : String :=
  let q := String.intercalate " OR " (subredditQueryParts n)
  if q.length > 500 then String.intercalate " OR " ((subredditQueryParts n).take 3)
  else q

/-- The `website_content` step of lines 1620-1637. -/
def websiteContentValue (c : CollabInputs) : String :=
  match c.domain with
  | none => "[Skipped - Domain unknown or not confirmed]"
  | some d =>
    if ¬ c.chromedriverPresent then "[Skipped - ChromeDriver not found]"
    else if ¬ c.driverOk then "[Skipped - Selenium WebDriver failed to initialize]"
    else String.mk (scrape_website_with_subpages c.homeOutcome c.links c.fetchSub d)

/-- The data-gathering portion of `generate_full_report`
(lines 1538-1664): the aggregate dataset `raw_data` as it stands when the
final analysis step is reached, or `none` for the early error return when
the LM Studio client is not initialized (lines 1545-1547).  The final
`analyze_with_llm` call only reads `raw_data`. -/
def generate_full_report (clientOk : Bool) (companyName : String)
    (c : CollabInputs) : Option (List (String × RV)) :=
  if ¬ clientOk then none
  else
    let d1 := setKey initRawData "llm_estimates"
      (.text (get_llm_company_estimates true c.llm))
    let d2 := setKey d1 "website_content" (.text (websiteContentValue c))
    let d3 :=
      if c.braveConfigured then
        let dn := setKey d2 "brave_news_snippets"
          (.text (search_brave_news true
            (fetch_brave_search_results true true (companyName ++ " news")
              c.newsTransport)))
        let ds := setKey dn "brave_size_estimate_snippets"
          (.text (search_brave_company_size_estimates true
            (fetch_brave_search_results true true (sizeQuery companyName)
              c.sizeTransport)))
        setKey ds "brave_subreddits"
          (.text (search_brave_relevant_subreddits true c.subredditInfo
            (fetch_brave_search_results true true (subredditQuery companyName)
              c.subredditTransport)))
      else d2
    let d4 := setKey d3 "brave_social_media_links"
      (.text (get_social_media_links c.domain c.socialFind))
    some (setKey d4 "globenewswire_articles" (.articles c.articles))

/-! ## Crawler lemmas -/

/-- The subpage budget is an invariant of the loop: the scraped-subpage
count never passes `maxSub`. -/
lemma subpageLoop_count_le (fetchSub : String → Option (List Char))
    (maxSub limit : Nat) :
    ∀ (l : List (String × Nat)) (st : CrawlState), st.count ≤ maxSub →
      (subpageLoop fetchSub maxSub limit st l).count ≤ maxSub := by
  intro l
  induction l with
  | nil => intro st h; simpa [subpageLoop] using h
  | cons hd tl ih =>
    intro st h
    obtain ⟨url, priority⟩ := hd
    rw [subpageLoop]
    by_cases h1 : st.count ≥ maxSub
    · simpa [h1] using h
    · simp only [if_neg h1]
      by_cases h2 : url ∈ st.scrapedUrls
      · simpa [h2] using ih st h
      · simp only [if_neg h2]
        by_cases h3 : st.combined.length ≥ limit
        · simpa [h3] using h
        · simp only [if_neg h3]
          cases hf : fetchSub url with
          | some text => exact ih _ (by simpa using Nat.succ_le_of_lt (Nat.lt_of_not_le h1))
          | none => exact ih _ h

/-- C8: For every base URL and every homepage/subpage content, the text
returned by `scrape_website_with_subpages` has length at most
`max_total_chars` (`WEBSITE_TEXT_LIMIT`), on every return path including
failure returns. -/
theorem crawl_text_never_exceeds_limit (home : HomeOutcome)
    (links : List (String × Nat)) (fetchSub : String → Option (List Char))
    (baseUrl0 : String) :
    (scrape_website_with_subpages home links fetchSub baseUrl0).length
      ≤ WEBSITE_TEXT_LIMIT := by
  unfold scrape_website_with_subpages scrapeRun
  cases home with
  | crash =>
    show ("[Website scraping failed due to WebDriverException]").data.length
      ≤ WEBSITE_TEXT_LIMIT
    decide
  | timeout =>
    show ("[Website scraping failed: Homepage body timeout]").data.length
      ≤ WEBSITE_TEXT_LIMIT
    decide
  | ok text =>
    simp only []
    calc (List.take WEBSITE_TEXT_LIMIT _).length
        = min WEBSITE_TEXT_LIMIT _ := List.length_take ..
      _ ≤ WEBSITE_TEXT_LIMIT := Nat.min_le_left ..

/-- C9: If the homepage body does not become ready within the wait timeout,
`scrape_website_with_subpages` returns the single explanatory
failure-marker string and no partial scraped content. -/
theorem homepage_timeout_single_marker (links : List (String × Nat))
    (fetchSub : String → Option (List Char)) (baseUrl0 : String) :
    scrape_website_with_subpages .timeout links fetchSub baseUrl0
      = "[Website scraping failed: Homepage body timeout]".data := rfl

/-- Candidate list for a concrete crawl in which the three best-ranked
subpages fail to load. -/
def c10Links : List (String × Nat) :=
  [("https://x.com/f1", 0), ("https://x.com/f2", 1), ("https://x.com/f3", 2),
   ("https://x.com/a", 3), ("https://x.com/b", 4), ("https://x.com/c", 5),
   ("https://x.com/d", 6), ("https://x.com/e", 7)]

/-- Fetch oracle for that crawl: the three best-ranked candidates time
out, every other page loads. -/
def c10Fetch : String → Option (List Char) := fun u =>
  if u = "https://x.com/f1" ∨ u = "https://x.com/f2" ∨ u = "https://x.com/f3"
  then none
  else some "t".data

set_option maxRecDepth 10000 in
/-- C10: A subpage whose fetch fails is skipped without incrementing the
scraped-subpage count, so failed attempts do not consume the
`max_subpages` budget: the crawler may attempt more candidate URLs than
`max_subpages` (here 8 attempts), while the count of successfully scraped
subpages never exceeds `MAX_SUBPAGES_TO_SCRAPE`. -/
theorem failed_fetch_does_not_consume_budget :
    (∀ (fetchSub : String → Option (List Char)) (limit : Nat) (st : CrawlState)
        (url : String) (priority : Nat) (rest : List (String × Nat)),
        fetchSub url = none → ¬ st.count ≥ MAX_SUBPAGES_TO_SCRAPE →
        url ∉ st.scrapedUrls → ¬ st.combined.length ≥ limit →
        subpageLoop fetchSub MAX_SUBPAGES_TO_SCRAPE limit st ((url, priority) :: rest)
          = subpageLoop fetchSub MAX_SUBPAGES_TO_SCRAPE limit
              { st with attempts := st.attempts + 1 } rest) ∧
    (∀ (home : HomeOutcome) (links : List (String × Nat))
        (fetchSub : String → Option (List Char)) (baseUrl0 : String),
        scrapedSubpageCount (scrapeRun home links fetchSub baseUrl0)
          ≤ MAX_SUBPAGES_TO_SCRAPE) ∧
    attemptedSubpages (scrapeRun (.ok "h".data) c10Links c10Fetch "https://x.com") = 8 ∧
    scrapedSubpageCount (scrapeRun (.ok "h".data) c10Links c10Fetch "https://x.com") = 5 := by
  refine ⟨?_, ?_, ?_, ?_⟩
  · intro fetchSub limit st url priority rest hf h1 h2 h3
    rw [subpageLoop]
    simp [h1, h2, h3, hf]
  · intro home links fetchSub baseUrl0
    cases home with
    | crash => exact Nat.zero_le _
    | timeout => exact Nat.zero_le _
    | ok text => exact subpageLoop_count_le _ _ _ (sortLinks links) _ (Nat.zero_le _)
  · decide
  · decide

/-- Witness for the hypothesis-bearing first conjunct of
`failed_fetch_does_not_consume_budget`, at a concrete loop state. -/
theorem failed_fetch_does_not_consume_budget_witness :
    subpageLoop c10Fetch MAX_SUBPAGES_TO_SCRAPE 100
        ⟨[], [], 0, 0, []⟩ [("https://x.com/f1", 0)]
      = subpageLoop c10Fetch MAX_SUBPAGES_TO_SCRAPE 100
          ⟨[], [], 0, 1, []⟩ [] :=
  failed_fetch_does_not_consume_budget.1 c10Fetch 100 ⟨[], [], 0, 0, []⟩
    "https://x.com/f1" 0 [] (by decide) (by decide) (by decide) (by decide)

/-- Concatenation of the text blocks of a candidate list. -/
def flatSections (fetchSub : String → Option (List Char))
    (ls : List (String × Nat)) : List Char :=
  ls.foldr (fun l acc => sectionOf fetchSub l ++ acc) []

lemma flatSections_length (fetchSub : String → Option (List Char))
    (ls : List (String × Nat)) :
    (flatSections fetchSub ls).length = sectionsLen fetchSub ls := by
  induction ls with
  | nil => rfl
  | cons hd tl ih =>
    simp [flatSections, sectionsLen, List.length_append] at *
    omega

lemma sortLinks_perm (links : List (String × Nat)) :
    List.Perm (sortLinks links) links :=
  List.perm_insertionSort _ links

lemma sortLinks_sorted (links : List (String × Nat)) :
    List.Sorted (fun a b => a.2 ≤ b.2) (sortLinks links) := by
  haveI : IsTotal (String × Nat) (fun a b => a.2 ≤ b.2) :=
    ⟨fun a b => Nat.le_total a.2 b.2⟩
  haveI : IsTrans (String × Nat) (fun a b => a.2 ≤ b.2) :=
    ⟨fun _ _ _ => Nat.le_trans⟩
  exact List.sorted_insertionSort _ links

/-- When every candidate is fresh and fetches successfully and the text
budget is not reached, the loop scrapes exactly the first
`maxSub - st.count` candidates, in list order. -/
lemma subpageLoop_all_fetches_succeed (fetchSub : String → Option (List Char))
    (maxSub limit : Nat) :
    ∀ (l : List (String × Nat)) (st : CrawlState),
      st.count ≤ maxSub →
      (l.map Prod.fst).Nodup →
      (∀ u ∈ l.map Prod.fst, u ∉ st.scrapedUrls) →
      (∀ u ∈ l.map Prod.fst, (fetchSub u).isSome) →
      st.combined.length + sectionsLen fetchSub (l.take (maxSub - st.count)) < limit →
      subpageLoop fetchSub maxSub limit st l =
        { combined := st.combined ++ flatSections fetchSub (l.take (maxSub - st.count))
          scrapedUrls := st.scrapedUrls ++ (l.take (maxSub - st.count)).map Prod.fst
          count := min maxSub (st.count + l.length)
          attempts := st.attempts + (l.take (maxSub - st.count)).length
          visited := st.visited ++ (l.take (maxSub - st.count)).map Prod.fst } := by
  intro l
  induction l with
  | nil =>
    intro st hc _ _ _ _
    rw [subpageLoop]
    simp only [List.take_nil, flatSections, List.foldr_nil, List.map_nil,
      List.append_nil, List.length_nil, Nat.add_zero]
    obtain ⟨cb, su, cnt, att, vis⟩ := st
    simp only [CrawlState.mk.injEq, true_and, and_true]
    simp only [] at hc
    omega
  | cons hd tl ih =>
    intro st hc hnd hfresh hfetch hlen
    obtain ⟨url, priority⟩ := hd
    rw [subpageLoop]
    by_cases h1 : st.count ≥ maxSub
    · have h0 : maxSub - st.count = 0 := by omega
      simp only [if_pos h1, h0, List.take_zero, flatSections, List.foldr_nil,
        List.map_nil, List.append_nil, List.length_nil, Nat.add_zero,
        List.length_cons]
      obtain ⟨cb, su, cnt, att, vis⟩ := st
      simp only [CrawlState.mk.injEq, true_and, and_true]
      simp only [] at hc h1
      omega
    · have hlt : st.count < maxSub := Nat.lt_of_not_le h1
      obtain ⟨k, hk⟩ : ∃ k, maxSub - st.count = k + 1 :=
        ⟨maxSub - st.count - 1, by omega⟩
      have hk2 : maxSub - (st.count + 1) = k := by omega
      have hfr : url ∉ st.scrapedUrls := hfresh url (by simp)
      rw [hk] at hlen
      simp only [List.take_succ_cons, sectionsLen, List.map_cons,
        List.sum_cons] at hlen
      have hcl : st.combined.length < limit := by omega
      cases hfe : fetchSub url with
      | none => exact absurd (hfetch url (by simp)) (by simp [hfe])
      | some t =>
        have hsec : sectionOf fetchSub (url, priority) = subSection priority url t := by
          simp [sectionOf, hfe]
        rw [hsec] at hlen
        simp only [if_neg h1, if_neg hfr,
          if_neg (by omega : ¬ st.combined.length ≥ limit), hfe]
        rw [ih { combined := st.combined ++ subSection priority url t
                 scrapedUrls := st.scrapedUrls ++ [url]
                 count := st.count + 1
                 attempts := st.attempts + 1
                 visited := st.visited ++ [url] }
            (by simp only []; omega)
            ((List.nodup_cons.mp (by simpa using hnd)).2)
            (by
              intro v hv hmem
              rcases List.mem_append.mp hmem with h | h
              · exact hfresh v (by simp [hv]) h
              · have hvu : v = url := by simpa using h
                exact (List.nodup_cons.mp (by simpa using hnd)).1 (hvu ▸ hv))
            (fun u hu => hfetch u (by simp [hu]))
            (by
              simp only []
              show (st.combined ++ subSection priority url t).length
                + sectionsLen fetchSub (tl.take (maxSub - (st.count + 1))) < limit
              rw [hk2]
              simp only [sectionsLen, List.length_append]
              omega)]
        simp only [hk, hk2, List.take_succ_cons, flatSections, List.foldr_cons,
          hsec, List.map_cons, List.length_cons, CrawlState.mk.injEq]
        obtain ⟨cb, su, cnt, att, vis⟩ := st
        refine ⟨by simp, by simp, ?_, ?_, by simp⟩
        · simp only []
          omega
        · simp only []
          omega

/-- C3: For every homepage that yields `N` relevant link candidates with
`max_subpages = k < N` (here the source constant
`MAX_SUBPAGES_TO_SCRAPE`), assuming every subpage fetch succeeds and the
accumulated text stays under `max_total_chars`,
`scrape_website_with_subpages` fetches exactly `k` subpages, visits them
in ascending priority-score order (the first `k` entries of the
score-sorted candidate list), and the homepage is always scraped first
and unconditionally included: the returned text is the homepage block
followed by the subpage blocks. -/
theorem crawler_scrapes_exact_budget_in_score_order
    (homeText : List Char) (links : List (String × Nat))
    (fetchSub : String → Option (List Char)) (baseUrl0 : String)
    (hN : MAX_SUBPAGES_TO_SCRAPE < links.length)
    (hnd : (links.map Prod.fst).Nodup)
    (hbase : ∀ u ∈ links.map Prod.fst, u ≠ normalizeBase baseUrl0)
    (hfetch : ∀ u ∈ links.map Prod.fst, (fetchSub u).isSome)
    (hlen : (homeSection (normalizeBase baseUrl0) homeText).length
        + sectionsLen fetchSub ((sortLinks links).take MAX_SUBPAGES_TO_SCRAPE)
        < WEBSITE_TEXT_LIMIT) :
    scrapedSubpageCount (scrapeRun (.ok homeText) links fetchSub baseUrl0)
        = MAX_SUBPAGES_TO_SCRAPE ∧
    visitedSubpages (scrapeRun (.ok homeText) links fetchSub baseUrl0)
        = ((sortLinks links).take MAX_SUBPAGES_TO_SCRAPE).map Prod.fst ∧
    List.Sorted (fun a b => a ≤ b) ((sortLinks links).map Prod.snd) ∧
    scrape_website_with_subpages (.ok homeText) links fetchSub baseUrl0
        = homeSection (normalizeBase baseUrl0) homeText
          ++ flatSections fetchSub ((sortLinks links).take MAX_SUBPAGES_TO_SCRAPE) := by
  have hperm := sortLinks_perm links
  have hnd2 : ((sortLinks links).map Prod.fst).Nodup :=
    ((hperm.map Prod.fst).nodup_iff).mpr hnd
  have hmem : ∀ u ∈ (sortLinks links).map Prod.fst, u ∈ links.map Prod.fst :=
    fun u hu => (hperm.map Prod.fst).mem_iff.mp hu
  have hlcount : (sortLinks links).length = links.length := hperm.length_eq
  have hinit := subpageLoop_all_fetches_succeed fetchSub MAX_SUBPAGES_TO_SCRAPE
      WEBSITE_TEXT_LIMIT (sortLinks links)
      { combined := homeSection (normalizeBase baseUrl0) homeText
        scrapedUrls := [normalizeBase baseUrl0]
        count := 0
        attempts := 0
        visited := [] }
      (by simp only []; exact Nat.zero_le _)
      hnd2
      (by
        intro u hu
        simp only [List.mem_singleton]
        exact hbase u (hmem u hu))
      (fun u hu => hfetch u (hmem u hu))
      (by
        simp only [Nat.sub_zero]
        exact hlen)
  simp only [Nat.sub_zero, Nat.zero_add] at hinit
  have hdone : scrapeRun (.ok homeText) links fetchSub baseUrl0
      = .done (subpageLoop fetchSub MAX_SUBPAGES_TO_SCRAPE WEBSITE_TEXT_LIMIT
          { combined := homeSection (normalizeBase baseUrl0) homeText
            scrapedUrls := [normalizeBase baseUrl0]
            count := 0
            attempts := 0
            visited := [] } (sortLinks links)) := rfl
  have hsortmap : List.Sorted (fun a b => a ≤ b) ((sortLinks links).map Prod.snd) :=
    List.Pairwise.map Prod.snd (fun _ _ hab => hab) (sortLinks_sorted links)
  refine ⟨?_, ?_, hsortmap, ?_⟩
  · rw [show scrapedSubpageCount (scrapeRun (.ok homeText) links fetchSub baseUrl0)
        = (subpageLoop fetchSub MAX_SUBPAGES_TO_SCRAPE WEBSITE_TEXT_LIMIT
            { combined := homeSection (normalizeBase baseUrl0) homeText
              scrapedUrls := [normalizeBase baseUrl0]
              count := 0
              attempts := 0
              visited := [] } (sortLinks links)).count from rfl]
    rw [hinit]
    simp only []
    omega
  · rw [show visitedSubpages (scrapeRun (.ok homeText) links fetchSub baseUrl0)
        = (subpageLoop fetchSub MAX_SUBPAGES_TO_SCRAPE WEBSITE_TEXT_LIMIT
            { combined := homeSection (normalizeBase baseUrl0) homeText
              scrapedUrls := [normalizeBase baseUrl0]
              count := 0
              attempts := 0
              visited := [] } (sortLinks links)).visited from rfl]
    rw [hinit]
    simp only [List.nil_append]
  · rw [show scrape_website_with_subpages (.ok homeText) links fetchSub baseUrl0
        = (subpageLoop fetchSub MAX_SUBPAGES_TO_SCRAPE WEBSITE_TEXT_LIMIT
            { combined := homeSection (normalizeBase baseUrl0) homeText
              scrapedUrls := [normalizeBase baseUrl0]
              count := 0
              attempts := 0
              visited := [] } (sortLinks links)).combined.take WEBSITE_TEXT_LIMIT
        from rfl]
    rw [hinit]
    simp only []
    refine List.take_of_length_le ?_
    rw [List.length_append, flatSections_length]
    omega

/-- A concrete homepage with six relevant candidates, for the crawl-budget
witness. -/
def c3Links : List (String × Nat) :=
  [("https://s.com/about", 0), ("https://s.com/team", 1),
   ("https://s.com/contact", 2), ("https://s.com/products", 3),
   ("https://s.com/news", 4), ("https://s.com/careers", 5)]

def c3Fetch : String → Option (List Char) := fun _ => some "x".data

set_option maxRecDepth 10000 in
/-- Witness for `crawler_scrapes_exact_budget_in_score_order` at a concrete
six-candidate homepage. -/
theorem crawler_scrapes_exact_budget_in_score_order_witness :
    scrapedSubpageCount (scrapeRun (.ok "home".data) c3Links c3Fetch "https://s.com")
      = MAX_SUBPAGES_TO_SCRAPE ∧
    visitedSubpages (scrapeRun (.ok "home".data) c3Links c3Fetch "https://s.com")
      = ((sortLinks c3Links).take MAX_SUBPAGES_TO_SCRAPE).map Prod.fst :=
  ⟨(crawler_scrapes_exact_budget_in_score_order "home".data c3Links c3Fetch
      "https://s.com" (by decide) (by decide) (by decide) (by decide) (by decide)).1,
   (crawler_scrapes_exact_budget_in_score_order "home".data c3Links c3Fetch
      "https://s.com" (by decide) (by decide) (by decide) (by decide) (by decide)).2.1⟩

lemma rstripSlash_append_slash (p : String) :
    rstripSlash (p ++ "/") = rstripSlash p := by
  unfold rstripSlash
  congr 1
  rw [String.data_append]
  have hd : ("/" : String).data = ['/'] := rfl
  rw [hd, List.reverse_append]
  simp [List.dropWhile]

/-- C2 counterexample: two discovered hrefs that differ only by a leading
`www.` on the host do NOT normalize to the same comparison key — the
normalization of line 585 uses the raw `netloc`; `www.` is stripped only
for the same-domain filter of lines 589-592. -/
theorem url_normalization_www_counterexample :
    normalizedKey ⟨"https", "www.example.com", "/about", "", ""⟩
      ≠ normalizedKey ⟨"https", "example.com", "/about", "", ""⟩ := by decide

/-- C2 (amended): URLs that differ only by query, fragment, or a trailing
slash produce the same normalized comparison key, and the `www.` prefix is
normalized away only in the domain-comparison helper
(`netloc.replace('www.', '')`), not in the comparison key itself. -/
theorem url_normalization_amended :
    (∀ (scheme host path q1 q2 f1 f2 : String),
        normalizedKey ⟨scheme, host, path, q1, f1⟩
          = normalizedKey ⟨scheme, host, path, q2, f2⟩) ∧
    (∀ (scheme host path q f : String),
        normalizedKey ⟨scheme, host, path ++ "/", q, f⟩
          = normalizedKey ⟨scheme, host, path, q, f⟩) ∧
    (∀ host : String, stripWww ("www." ++ host) = stripWww host) := by
  refine ⟨fun _ _ _ _ _ _ _ => rfl, ?_, ?_⟩
  · intro scheme host path q f
    unfold normalizedKey
    rw [rstripSlash_append_slash]
  · intro host
    unfold stripWww
    congr 1

/-! ## Search Result Normalizer claims -/

/-- A 200 payload with an empty `news` results list and a non-empty `web`
results list. -/
def c1Payload : JObj :=
  [("news", .obj [("results", .arr [])]),
   ("web", .obj [("results",
      .arr [.obj [("title", .str "T"), ("url", .str "https://e.com/a")]])])]

/-- C1 counterexample: the extraction chain settles on the first branch
whose container guard matches even when that branch's results list is
empty — here the empty `news` list is chosen and the non-empty `web` list
is never reached, so the fetch returns success with no results instead of
falling through. -/
theorem brave_chain_stops_at_empty_news :
    (fetch_brave_search_results true true "q"
        (.response 200 (.wellFormed c1Payload))).results = [] ∧
    (fetch_brave_search_results true true "q"
        (.response 200 (.wellFormed c1Payload))).status = .success := ⟨rfl, rfl⟩

/-- C1 (amended): `fetch_brave_search_results` extracts records by the
fixed-order fallback chain `news` → `web` → `discussions` → top-level
`results` → top-level `hits` → `mixed`, stopping at the first branch whose
guard matches — a truthy category container holding a `results` list (of
any length), a top-level list, or a truthy `mixed` value.  A branch whose
guard matches is final even when its list is empty; fall-through happens
only when a guard does not match. -/
theorem brave_chain_guard_order :
    (∀ (data n : JObj) (L : List Json),
        jlookup data "mixed" = none →
        jlookup data "news" = some (.obj n) → n.isEmpty = false →
        jlookup n "results" = some (.arr L) →
        extractResults data = .ok (.list L)) ∧
    (∀ (data w : JObj) (L : List Json),
        jlookup data "mixed" = none → jlookup data "news" = none →
        jlookup data "web" = some (.obj w) → w.isEmpty = false →
        jlookup w "results" = some (.arr L) →
        extractResults data = .ok (.list L)) ∧
    (∀ (data d : JObj) (L : List Json),
        jlookup data "mixed" = none → jlookup data "news" = none →
        jlookup data "web" = none →
        jlookup data "discussions" = some (.obj d) → d.isEmpty = false →
        jlookup d "results" = some (.arr L) →
        extractResults data = .ok (.list L)) ∧
    (∀ (data : JObj) (L : List Json),
        jlookup data "mixed" = none → jlookup data "news" = none →
        jlookup data "web" = none → jlookup data "discussions" = none →
        jlookup data "results" = some (.arr L) →
        extractResults data = .ok (.list L)) ∧
    (∀ (data : JObj) (L : List Json),
        jlookup data "mixed" = none → jlookup data "news" = none →
        jlookup data "web" = none → jlookup data "discussions" = none →
        jlookup data "results" = none →
        jlookup data "hits" = some (.arr L) →
        extractResults data = .ok (.list L)) ∧
    (∀ (data m : JObj),
        jlookup data "news" = none → jlookup data "web" = none →
        jlookup data "discussions" = none → jlookup data "results" = none →
        jlookup data "hits" = none →
        jlookup data "mixed" = some (.obj m) → m.isEmpty = false →
        typeIsNoResults m = false →
        extractResults data = mixedExtract (.obj m)) ∧
    (∀ (data : JObj),
        jlookup data "mixed" = none →
        jlookup data "news" = some (.obj [("results", Json.arr [])]) →
        extractResults data = .ok (.list [])) := by
  refine ⟨?_, ?_, ?_, ?_, ?_, ?_, ?_⟩
  · intro data n L hm hn hne hr
    simp [extractResults, preMixedCheck, containerResults, dictGet, Json.truthy,
      hm, hn, hne, hr]
  · intro data w L hm hn hw hwe hr
    simp [extractResults, preMixedCheck, containerResults, dictGet, Json.truthy,
      hm, hn, hw, hwe, hr]
  · intro data d L hm hn hw hd hde hr
    simp [extractResults, preMixedCheck, containerResults, dictGet, Json.truthy,
      hm, hn, hw, hd, hde, hr]
  · intro data L hm hn hw hd hr
    simp [extractResults, preMixedCheck, containerResults, dictGet, Json.truthy,
      hm, hn, hw, hd, hr]
  · intro data L hm hn hw hd hr hh
    simp [extractResults, preMixedCheck, containerResults, dictGet, Json.truthy,
      hm, hn, hw, hd, hr, hh]
  · intro data m hn hw hd hr hh hm hme htype
    simp [extractResults, preMixedCheck, containerResults, dictGet, Json.truthy,
      hm, hn, hw, hd, hr, hh, hme, htype]
  · intro data hm hn
    simp [extractResults, preMixedCheck, containerResults, dictGet, jlookup,
      Json.truthy, hm, hn]

set_option maxRecDepth 4000 in
/-- Witness for `brave_chain_guard_order`: the `news` branch is selected
at a concrete payload. -/
theorem brave_chain_guard_order_witness :
    extractResults [("news", .obj [("results",
        .arr [.obj [("title", .str "T")]])])]
      = .ok (.list [.obj [("title", .str "T")]]) :=
  brave_chain_guard_order.1 [("news", .obj [("results",
      .arr [.obj [("title", .str "T")]])])]
    [("results", .arr [.obj [("title", .str "T")]])] [.obj [("title", .str "T")]]
    rfl rfl rfl rfl

lemma handle200_ok_success (query : String) (data : JObj) (r : BraveResponse)
    (h : handle200 query data = .ok r) : r.status = .success := by
  unfold handle200 at h
  split at h
  · simp at h
  · cases h; rfl
  · cases h; rfl
  · split at h
    · simp at h
    · cases h; rfl

/-- C4 counterexample: `fetch_brave_search_results` returns `status:
"error"` without any transport-level failure — when Brave Search is not
configured, and when a well-formed 200 payload carries a truthy non-dict
category container (here `news = "hello"`), whose `.get` raises an
`AttributeError` that the blanket `except Exception` maps to an error. -/
theorem brave_error_without_transport_failure :
    (fetch_brave_search_results false true "q"
        (.response 200 (.wellFormed []))).status = .error ∧
    (fetch_brave_search_results true true "q"
        (.response 200 (.wellFormed [("news", Json.str "hello")]))).status
      = .error := ⟨rfl, rfl⟩

/-- C4 (amended): `fetch_brave_search_results` returns `status: "error"`
for transport-level failures (network error, non-200 status, malformed
JSON), for missing configuration, and for payloads whose parsing raises an
internal exception; every well-formed 200 payload whose parsing raises no
exception yields `status: "success"`, and in particular a payload from
which no branch extracts any record — including an explicit `no_results`
signal — yields success with an empty results list and a descriptive
message. -/
theorem brave_error_status_amended :
    (∀ (q m : String),
        (fetch_brave_search_results true true q (.netError m)).status = .error) ∧
    (∀ (q : String) (st : Nat) (body : BodyParse), st ≠ 200 →
        (fetch_brave_search_results true true q (.response st body)).status
          = .error) ∧
    (∀ (q m : String),
        (fetch_brave_search_results true true q
            (.response 200 (.malformed m))).status = .error) ∧
    (∀ (q : String) (t : Transport) (k : Bool),
        (fetch_brave_search_results false k q t).status = .error) ∧
    (∀ (q : String) (data : JObj) (r : BraveResponse), handle200 q data = .ok r →
        fetch_brave_search_results true true q (.response 200 (.wellFormed data)) = r
          ∧ r.status = .success) ∧
    (∀ (q : String) (data : JObj), extractResults data = .ok .earlyEmpty →
        fetch_brave_search_results true true q (.response 200 (.wellFormed data))
          = ⟨.success, some ("No search results found for " ++ quoted q ++ "."), []⟩) ∧
    (∀ (q : String) (data : JObj), extractResults data = .ok (.list []) →
        fetch_brave_search_results true true q (.response 200 (.wellFormed data))
          = ⟨.success,
             some ("No search results found or extracted for " ++ quoted q ++ "."),
             []⟩) := by
  refine ⟨fun q m => rfl, ?_, fun q m => rfl, fun q t k => rfl, ?_, ?_, ?_⟩
  · intro q st body h
    simp [fetch_brave_search_results, h]
  · intro q data r h
    exact ⟨by simp [fetch_brave_search_results, h], handle200_ok_success q data r h⟩
  · intro q data h
    simp [fetch_brave_search_results, handle200, h]
  · intro q data h
    simp [fetch_brave_search_results, handle200, h]

/-- Witness for `brave_error_status_amended`: the empty payload extracts
nothing and yields the empty success response. -/
theorem brave_error_status_amended_witness :
    fetch_brave_search_results true true "q" (.response 200 (.wellFormed []))
      = ⟨.success, some ("No search results found or extracted for "
          ++ quoted "q" ++ "."), []⟩ :=
  brave_error_status_amended.2.2.2.2.2.2 "q" [] rfl

/-- A record whose `meta_url` is a dict without `display_name`, with a
`source` field present. -/
def c6Rec : JObj :=
  [("meta_url", .obj []), ("source", .str "CNN"),
   ("url", .str "https://example.com/x")]

/-- C6 counterexample: the provider chain branches on the presence of the
`meta_url` dict, not on the presence of `display_name` — when `meta_url`
is a dict without `display_name`, the `source` and `profile.name`
alternatives are skipped (the `elif` of line 389 is never reached) and the
provider falls directly to the URL's host. -/
theorem provider_skips_source_when_meta_url_dict :
    parseProvider c6Rec (parseUrl c6Rec) = Json.str "example.com" ∧
    Json.str "example.com" ≠ Json.str "CNN" :=
  ⟨rfl, by intro h; injection h with h2; exact absurd h2 (by decide)⟩

/-- C6 (amended): provider recovery selects one alternative by container
presence — `meta_url.display_name` when `meta_url` is a dict, else the
`source` value when the `source` key exists, else `profile.name` when
`profile` is a truthy dict — and any falsy selected value falls directly
to the host of the record's URL, skipping the remaining named
alternatives; when every alternative is absent the host is used, and a
missing host yields `"Unknown Provider"`. -/
theorem provider_fallback_amended :
    (∀ (o : JObj) (u : String),
        jlookup o "meta_url" = none → jlookup o "source" = none →
        jlookup o "profile" = none → u ≠ "" → netlocOf u ≠ "" →
        parseProvider o (.str u) = Json.str (netlocOf u)) ∧
    (∀ (o mu : JObj) (d : String) (urlVal : Json),
        jlookup o "meta_url" = some (.obj mu) →
        jlookup mu "display_name" = some (.str d) → d ≠ "" →
        parseProvider o urlVal = Json.str d) ∧
    (∀ (o mu : JObj) (u : String),
        jlookup o "meta_url" = some (.obj mu) →
        jlookup mu "display_name" = none → u ≠ "" → netlocOf u ≠ "" →
        parseProvider o (.str u) = Json.str (netlocOf u)) ∧
    (∀ (o : JObj) (s : String) (urlVal : Json),
        jlookup o "meta_url" = none → jlookup o "source" = some (.str s) →
        s ≠ "" → parseProvider o urlVal = Json.str s) ∧
    (∀ (o pr : JObj) (nm : String) (urlVal : Json),
        jlookup o "meta_url" = none → jlookup o "source" = none →
        jlookup o "profile" = some (.obj pr) → pr.isEmpty = false →
        jlookup pr "name" = some (.str nm) → nm ≠ "" →
        parseProvider o urlVal = Json.str nm) ∧
    (∀ (o : JObj) (u : String),
        jlookup o "meta_url" = none → jlookup o "source" = some (.str "") →
        u ≠ "" → netlocOf u ≠ "" →
        parseProvider o (.str u) = Json.str (netlocOf u)) ∧
    (∀ (o : JObj) (urlVal : Json),
        jlookup o "meta_url" = none → jlookup o "source" = none →
        jlookup o "profile" = none → urlVal.truthy = false →
        parseProvider o urlVal = Json.str "Unknown Provider") := by
  refine ⟨?_, ?_, ?_, ?_, ?_, ?_, ?_⟩
  · intro o u hmu hs hp hu hn
    simp [parseProvider, dictGet, hasKey, Json.truthy, hmu, hs, hp, hu, hn]
  · intro o mu d urlVal hmu hd hdne
    simp [parseProvider, dictGet, hasKey, Json.truthy, hmu, hd, hdne]
  · intro o mu u hmu hd hu hn
    simp [parseProvider, dictGet, hasKey, Json.truthy, hmu, hd, hu, hn]
  · intro o s urlVal hmu hs hsne
    simp [parseProvider, dictGet, hasKey, Json.truthy, hmu, hs, hsne]
  · intro o pr nm urlVal hmu hs hp hpe hn hnne
    simp [parseProvider, dictGet, hasKey, Json.truthy, hmu, hs, hp, hpe, hn, hnne]
  · intro o u hmu hs hu hn
    simp [parseProvider, dictGet, hasKey, Json.truthy, hmu, hs, hu, hn]
  · intro o urlVal hmu hs hp hfalsy
    simp [parseProvider, dictGet, hasKey, hmu, hs, hp, hfalsy]
    rfl

/-- Witness for `provider_fallback_amended`: the `source` alternative is
selected when `meta_url` is absent. -/
theorem provider_fallback_amended_witness :
    parseProvider [("source", Json.str "CNN")] Json.null = Json.str "CNN" :=
  provider_fallback_amended.2.2.2.1 [("source", Json.str "CNN")] "CNN" Json.null
    rfl rfl (by decide)

/-- C7: A record carrying only nested `web.snippet` and `web.url` fields
is field-recovered to the same parsed output — description and url in
particular — as a record that carries the same description and url at top
level (for a non-empty url; an empty nested url is falsy and is not
copied up). -/
theorem web_nested_flatten_equivalence (s u : String) (hu : u ≠ "") :
    parseRecord [("web", Json.obj [("snippet", Json.str s), ("url", Json.str u)])]
      = parseRecord [("description", Json.str s), ("url", Json.str u)] := by
  by_cases hs : s = ""
  · subst hs
    simp [parseRecord, parseDescription, parseUrl, parseProvider, parseTitle,
      parseDate, dictGet, hasKey, jlookup, Json.truthy, hu]
  · simp [parseRecord, parseDescription, parseUrl, parseProvider, parseTitle,
      parseDate, dictGet, hasKey, jlookup, Json.truthy, hu, hs]

/-- Witness for `web_nested_flatten_equivalence` at concrete field
values. -/
theorem web_nested_flatten_equivalence_witness :
    parseRecord [("web", Json.obj [("snippet", Json.str "a snippet"),
        ("url", Json.str "https://e.com/p")])]
      = parseRecord [("description", Json.str "a snippet"),
          ("url", Json.str "https://e.com/p")] :=
  web_nested_flatten_equivalence "a snippet" "https://e.com/p" (by decide)

lemma lookupRV_setKey_isSome (k k2 : String) (v : RV) :
    ∀ (d : List (String × RV)), (lookupRV d k2).isSome →
      (lookupRV (setKey d k v) k2).isSome := by
  intro d
  induction d with
  | nil => intro h; simp [lookupRV] at h
  | cons hd tl ih =>
    intro h
    obtain ⟨k0, v0⟩ := hd
    simp only [setKey]
    by_cases he : k0 = k
    · simp only [if_pos he, lookupRV]
      by_cases h2 : k = k2
      · simp [h2]
      · subst he
        simp only [lookupRV, if_neg h2] at h ⊢
        exact h
    · simp only [if_neg he, lookupRV]
      by_cases h2 : k0 = k2
      · simp [h2]
      · simp only [lookupRV, if_neg h2] at h
        simp only [if_neg h2]
        exact ih h

/-- Collaborator outcomes in which every external collaborator fails. -/
def allFailCollab : CollabInputs :=
  { llm := .connError
    domain := some "x.com"
    chromedriverPresent := true
    driverOk := true
    homeOutcome := .timeout
    links := []
    fetchSub := fun _ => none
    braveConfigured := true
    newsTransport := .netError "down"
    sizeTransport := .netError "down"
    subredditTransport := .netError "down"
    subredditInfo := fun _ => none
    socialFind := .error "fetch timeout"
    articles := [] }

/-- C5: After a full `generate_full_report` run the aggregate dataset
contains every one of its fixed keys, for every combination of
collaborator outcomes; and when every external collaborator fails, each
key holds its explicit failure placeholder — no exception from a sub-step
escapes (each step converts its failures to a placeholder value itself)
and no step failure aborts a later step. -/
theorem aggregate_dataset_always_complete :
    (∀ (companyName : String) (c : CollabInputs),
        ∃ ds, generate_full_report true companyName c = some ds ∧
          ∀ k ∈ aggregateKeys, (lookupRV ds k).isSome) ∧
    (∃ ds, generate_full_report true "Acme" allFailCollab = some ds ∧
        lookupRV ds "website_content"
          = some (.text "[Website scraping failed: Homepage body timeout]") ∧
        lookupRV ds "llm_estimates"
          = some (.text "[LLM estimation failed: LM Studio Connection Error]") ∧
        lookupRV ds "brave_news_snippets"
          = some (.text
              "[Brave News search failed: URL Error reaching Brave API: down]") ∧
        lookupRV ds "brave_size_estimate_snippets"
          = some (.text
              "[Brave Web Search for size data failed: URL Error reaching Brave API: down]") ∧
        lookupRV ds "brave_subreddits"
          = some (.text
              "[Brave Web Search for subreddits failed: URL Error reaching Brave API: down]") ∧
        lookupRV ds "brave_social_media_links"
          = some (.text "[Social media links search failed: fetch timeout]") ∧
        lookupRV ds "globenewswire_articles" = some (.articles [])) := by
  constructor
  · intro companyName c
    refine ⟨_, rfl, ?_⟩
    intro k hk
    have hinit : (lookupRV initRawData k).isSome := by fin_cases hk <;> decide
    by_cases hb : c.braveConfigured
    · simp only [hb, if_true]
      exact lookupRV_setKey_isSome _ _ _ _ (lookupRV_setKey_isSome _ _ _ _
        (lookupRV_setKey_isSome _ _ _ _ (lookupRV_setKey_isSome _ _ _ _
          (lookupRV_setKey_isSome _ _ _ _ (lookupRV_setKey_isSome _ _ _ _
            (lookupRV_setKey_isSome _ _ _ _ hinit))))))
    · simp only [hb, if_false]
      exact lookupRV_setKey_isSome _ _ _ _ (lookupRV_setKey_isSome _ _ _ _
        (lookupRV_setKey_isSome _ _ _ _ (lookupRV_setKey_isSome _ _ _ _ hinit)))
  · exact ⟨_, rfl, rfl, rfl, rfl, rfl, rfl, rfl, rfl⟩

/-- Witness for `aggregate_dataset_always_complete` at the all-failing
collaborator outcomes. -/
theorem aggregate_dataset_always_complete_witness :
    ∃ ds, generate_full_report true "Acme" allFailCollab = some ds ∧
      ∀ k ∈ aggregateKeys, (lookupRV ds k).isSome :=
  aggregate_dataset_always_complete.1 "Acme" allFailCollab
